import Mathlib

/-!
Verification of the JSON:API tracing middleware
(`v3/crates/jsonapi/src/middleware.rs`).

The middleware is embedded as a pure function: the downstream handler
chain (`next`) is a function from a request to a response paired with
the list of trace events the downstream work emits, and the tracer
gateway is modelled as prepending/appending span events around the
block it runs.  Collaborators that live outside this crate
(`tracing_util`, `engine_types`, `JsonApiHttpError`) are modelled from
the specification and marked as such.
-/

namespace JsonApiMiddleware

/-- A header collection: an ordered list of name/value pairs. -/
abbrev HeaderMap := List (String × String)

/-- An inbound HTTP request: a header collection and a body. -/
structure Request where
  headers : HeaderMap
  body : String
  deriving DecidableEq, Repr

/-- An outbound HTTP response: status code, headers and body. -/
structure Response where
  status : Nat
  headers : HeaderMap
  body : String
  deriving DecidableEq, Repr

/-- Span visibility classification (`tracing_util::SpanVisibility`):
user-facing spans versus internal ones. -/
inductive SpanVisibility where
  | internal
  | user
  deriving DecidableEq, Repr

/-- Terminal classification of a span's outcome. -/
inductive SpanOutcome where
  | success
  | failure
  deriving DecidableEq, Repr

/-- Identity of a parent span carried in request metadata. -/
abbrev SpanId := String

/-- Modelled from the spec: the Tracer Gateway's parent-context
extraction routine (`tracing_util` is not part of this crate).  The
Trace Context is an opaque carrier extracted from request headers,
representing zero or one parent span identity; absence is not an
error. -/
def extractParentContext (headers : HeaderMap) : Option SpanId :=
  headers.lookup ("traceparent")

/-- Observable events emitted by the tracer gateway while handling a
request.  `custom` is a free tag for instrumenting a downstream chain
in theorems. -/
inductive TraceEvent where
  | spanOpen (name : String) (label : String) (visibility : SpanVisibility)
      (parent : Option SpanId)
  | spanClose (name : String) (outcome : SpanOutcome)
  | custom (tag : String)
  deriving DecidableEq, Repr

/-- Does the event open a span? -/
def TraceEvent.isSpanOpen : TraceEvent → Bool
  | .spanOpen _ _ _ _ => true
  | _ => false

/-- Does the event close a span? -/
def TraceEvent.isSpanClose : TraceEvent → Bool
  | .spanClose _ _ => true
  | _ => false

/-- The span name recorded by a span-opening event, if any. -/
def TraceEvent.openName : TraceEvent → Option String
  | .spanOpen name _ _ _ => some name
  | _ => none

/-- The grouping label recorded by a span-opening event, if any. -/
def TraceEvent.openLabel : TraceEvent → Option String
  | .spanOpen _ label _ _ => some label
  | _ => none

/-- Modelled from the spec: `tracing_util::TraceableHttpResponse`, the
pairing of the raw outbound response with the route/path label used to
annotate the span. -/
structure TraceableHttpResponse where
  response : Response
  path : String
  deriving DecidableEq, Repr

/-- Constructor `TraceableHttpResponse::new(response, path)`. -/
def TraceableHttpResponse.new (response : Response) (path : String) :
    TraceableHttpResponse :=
  ⟨response, path⟩

/-- Modelled from the spec: the annotation step inspects the response
to classify the span's outcome (status-code-derived success/failure)
but never alters the response. -/
def responseOutcome (r : Response) : SpanOutcome :=
  if r.status < 400 then SpanOutcome.success else SpanOutcome.failure

/-- Outcome classification of a traceable response, derived from the
wrapped response's status encoding. -/
def TraceableHttpResponse.outcome (t : TraceableHttpResponse) : SpanOutcome :=
  responseOutcome t.response

/-- Modelled from the spec: the Tracer Gateway's operation to run an
async block as a new span (`tracing_util`'s
`in_span_async_with_parent_context`, not part of this crate).  Given a
span name, a grouping label, a visibility classification, a header
collection for parent-context extraction and the block, it opens a
span (parented on the extracted context) before the block runs, runs
the block exactly once, closes the span after the block's completion
with an outcome classified from the block's traceable result, and
returns the block's result.  The emitted event list makes the span
lifecycle observable. -/
def in_span_async_with_parent_context (name : String) (label : String)
    (visibility : SpanVisibility) (headers : HeaderMap)
    (block : Unit → TraceableHttpResponse × List TraceEvent) :
    TraceableHttpResponse × List TraceEvent :=
  ((block ()).1,
    TraceEvent.spanOpen name label visibility (extractParentContext headers)
      :: (block ()).2
      ++ [TraceEvent.spanClose name ((block ()).1).outcome])

/-- The fixed route label for this middleware's mount point
(`let path = "/v1/rest"` in the source). -/
def path : String := "/v1/rest"

/-- Embedding of `rest_request_tracing_middleware`: obtain the global
tracer, run the downstream chain (`next.run(request)`) inside a span
named `path` with grouping label `path`, user visibility and parent
context extracted from a clone of the request's headers, wrap the
downstream response as a `TraceableHttpResponse` with the route label,
and return the `.response` field of the awaited result.  The
downstream chain is a function from the request to a response paired
with the trace events the downstream work emits; the middleware's
result carries the full event list out-of-band. -/
def rest_request_tracing_middleware (request : Request)
    (next : Request → Response × List TraceEvent) :
    Response × List TraceEvent :=
  let result :=
    in_span_async_with_parent_context path path SpanVisibility.user
      request.headers
      (fun _ => (TraceableHttpResponse.new (next request).1 path, (next request).2))
  ((result.1).response, result.2)

/-- Modelled from the spec: the Middleware Error, a failure raised by
framework-level request processing prior to handler execution.  The
spec documents the request-body parse failure kind, mapped to a
structured 400 response with error code `invalid-request-body`. -/
inductive MiddlewareError where
  | invalidRequestBody (message : String)
  deriving DecidableEq, Repr

/-- Modelled from the spec: the Protocol Error type
(`crate::types::JsonApiHttpError`, whose source is outside this file's
crate slice) carrying an HTTP status, an error code/kind, and a
human-readable message. -/
structure JsonApiHttpError where
  status : Nat
  errorCode : String
  message : String
  deriving DecidableEq, Repr

/-- Modelled from the spec: `JsonApiHttpError::from_middleware_error`,
the documented mapping from a Middleware Error kind to a Protocol
Error (exhaustive over the error's variants). -/
def JsonApiHttpError.from_middleware_error : MiddlewareError → JsonApiHttpError
  | .invalidRequestBody message => ⟨400, "invalid-request-body", message⟩

/-- Modelled from the spec: conversion of a Protocol Error into an
HTTP response (status + body). -/
def JsonApiHttpError.into_response (e : JsonApiHttpError) : Response :=
  ⟨e.status, [("content-type", "application/json")],
    e.errorCode ++ ": " ++ e.message⟩

/-- The documented status for each Middleware Error kind: the spec's
body-parse-failure scenario yields a 400 response. -/
def documentedStatus : MiddlewareError → Nat
  | .invalidRequestBody _ => 400

/-- Modelled from the spec:
`engine_types::WithMiddlewareErrorConverter`, a decorator over opaque
server state exposing the original state unchanged plus a stored
conversion function from a Middleware Error to a response. -/
structure WithMiddlewareErrorConverter (S : Type) where
  state : S
  convert : MiddlewareError → Response

/-- Constructor `WithMiddlewareErrorConverter::new(state, f)`: stores
the state and the conversion function without invoking either. -/
def WithMiddlewareErrorConverter.new {S : Type} (state : S)
    (convert : MiddlewareError → Response) : WithMiddlewareErrorConverter S :=
  ⟨state, convert⟩

/-- Embedding of `build_state_with_middleware_error_converter`: wraps
any server state with the JSON:API middleware-error converter, the
composition of `JsonApiHttpError::from_middleware_error` with
`into_response`. -/
def build_state_with_middleware_error_converter {S : Type} (state : S) :
    WithMiddlewareErrorConverter S :=
  WithMiddlewareErrorConverter.new state (fun error =>
    (JsonApiHttpError.from_middleware_error error).into_response)

/-- A downstream chain that reflects the request it receives back in
the response, used to observe what the middleware forwards. -/
def echoHandler : Request → Response × List TraceEvent :=
  fun r => (⟨200, r.headers, r.body⟩, [])

/-- Marker event used to count invocations of the downstream chain. -/
def handlerCallMarker : TraceEvent :=
  TraceEvent.custom ("handler-call")

/-- Instrumented downstream chain: behaves like `next` but records a
marker event on every invocation. -/
def instrumented (next : Request → Response × List TraceEvent) :
    Request → Response × List TraceEvent :=
  fun r => ((next r).1, handlerCallMarker :: (next r).2)

/-- C1: for every request and every downstream chain, the middleware's
event trace is exactly one span-open, followed by all downstream
events, followed by exactly one span-close: the middleware opens
exactly one span and closes exactly one span, the open strictly
precedes the close, the open precedes the downstream chain's events
and the close follows their completion, regardless of the downstream
outcome or of the absence of an extractable parent context. -/
theorem span_lifecycle_exactly_once (request : Request)
    (next : Request → Response × List TraceEvent) :
    (rest_request_tracing_middleware request next).2
      = TraceEvent.spanOpen path path SpanVisibility.user
            (extractParentContext request.headers)
          :: (next request).2
          ++ [TraceEvent.spanClose path (responseOutcome (next request).1)]
    ∧ ((rest_request_tracing_middleware request next).2).countP
          TraceEvent.isSpanOpen
        = ((next request).2).countP TraceEvent.isSpanOpen + 1
    ∧ ((rest_request_tracing_middleware request next).2).countP
          TraceEvent.isSpanClose
        = ((next request).2).countP TraceEvent.isSpanClose + 1 := by
  refine ⟨rfl, ?_, ?_⟩ <;>
    simp [rest_request_tracing_middleware, in_span_async_with_parent_context,
      TraceEvent.isSpanOpen, TraceEvent.isSpanClose, List.countP_cons,
      List.countP_append]

/-- C2: for every request and downstream chain, the response the
middleware returns to its caller is identical, in status, headers and
body, to the response produced by the downstream chain: the middleware
is a transparent pass-through for the payload. -/
theorem response_transparent_pass_through (request : Request)
    (next : Request → Response × List TraceEvent) :
    (rest_request_tracing_middleware request next).1 = (next request).1
    ∧ ((rest_request_tracing_middleware request next).1).status
        = ((next request).1).status
    ∧ ((rest_request_tracing_middleware request next).1).headers
        = ((next request).1).headers
    ∧ ((rest_request_tracing_middleware request next).1).body
        = ((next request).1).body :=
  ⟨rfl, rfl, rfl, rfl⟩

/-- C3: for every request and downstream chain, the middleware invokes
the downstream chain exactly once — instrumenting the chain to record
a marker event per invocation, the middleware's trace contains exactly
one more marker than a single downstream run emits — and that single
invocation happens within the span's active scope, strictly between
the span-open and the span-close events. -/
theorem downstream_invoked_exactly_once (request : Request)
    (next : Request → Response × List TraceEvent) :
    ((rest_request_tracing_middleware request (instrumented next)).2).count
          handlerCallMarker
        = ((next request).2).count handlerCallMarker + 1
    ∧ (rest_request_tracing_middleware request (instrumented next)).2
        = TraceEvent.spanOpen path path SpanVisibility.user
              (extractParentContext request.headers)
            :: (handlerCallMarker :: (next request).2)
            ++ [TraceEvent.spanClose path (responseOutcome (next request).1)] := by
  constructor
  · simp [rest_request_tracing_middleware, in_span_async_with_parent_context,
      instrumented, handlerCallMarker, List.count_cons, List.count_append]
  · rfl

/-- C4: for every request and downstream chain, the first trace event
is the span-open, named after the fixed route label "/v1/rest", tagged
with user visibility, and parented on the trace context extracted from
the request's headers — so if the headers carry a recognizable parent
context the span's parent matches it, and if extraction yields nothing
the span is a root span. -/
theorem span_named_user_visible_parented (request : Request)
    (next : Request → Response × List TraceEvent) :
    ((rest_request_tracing_middleware request next).2).head?
      = some (TraceEvent.spanOpen path path SpanVisibility.user
          (extractParentContext request.headers))
    ∧ path = "/v1/rest" :=
  ⟨rfl, rfl⟩

/-- C5: for every request and downstream chain, the middleware pairs
the downstream response with the route label "/v1/rest" to form a
`TraceableHttpResponse`, whose outcome classification annotates the
final span-close event of the trace; the annotation classifies the
outcome from the response but the response itself — body and status —
is returned to the caller unaltered. -/
theorem traceable_response_annotates_and_closes (request : Request)
    (next : Request → Response × List TraceEvent) :
    ((rest_request_tracing_middleware request next).2).getLast?
      = some (TraceEvent.spanClose path
          (TraceableHttpResponse.new (next request).1 path).outcome)
    ∧ (TraceableHttpResponse.new (next request).1 path).response
        = (next request).1
    ∧ (rest_request_tracing_middleware request next).1 = (next request).1
    ∧ path = "/v1/rest" := by
  refine ⟨?_, rfl, rfl, rfl⟩
  have h : (rest_request_tracing_middleware request next).2
      = (TraceEvent.spanOpen path path SpanVisibility.user
            (extractParentContext request.headers) :: (next request).2)
          ++ [TraceEvent.spanClose path
                (TraceableHttpResponse.new (next request).1 path).outcome] := rfl
  rw [h, List.getLast?_concat]

/-- C6: for every state value, building the wrapper is total (a Lean
function defined on all inputs), exposes the original state unchanged,
and stores exactly the conversion function composing
`JsonApiHttpError.from_middleware_error` with `into_response`; the
stored state does not depend on which conversion function is supplied,
so the builder never invokes the converter to produce the wrapper. -/
theorem build_state_exposes_state_and_converter (S : Type) (s : S) :
    (build_state_with_middleware_error_converter s).state = s
    ∧ (build_state_with_middleware_error_converter s).convert
        = (fun error =>
            (JsonApiHttpError.from_middleware_error error).into_response)
    ∧ ∀ f g : MiddlewareError → Response,
        (WithMiddlewareErrorConverter.new s f).state
          = (WithMiddlewareErrorConverter.new s g).state :=
  ⟨rfl, rfl, fun _ _ => rfl⟩

/-- C7: the conversion attached by the builder is total and
deterministic — it is exactly the pure function sending an error
through `JsonApiHttpError.from_middleware_error` and `into_response`,
so equal error inputs yield equal Protocol Error Responses — and the
produced response's status code matches the error kind's documented
mapping. -/
theorem converter_deterministic_and_status_mapped (S : Type) (s : S)
    (e : MiddlewareError) :
    (build_state_with_middleware_error_converter s).convert e
      = (JsonApiHttpError.from_middleware_error e).into_response
    ∧ ((build_state_with_middleware_error_converter s).convert e).status
        = documentedStatus e := by
  refine ⟨rfl, ?_⟩
  cases e
  rfl

/-- C8: the span name and the grouping label passed to the tracer's
span-opening operation are the same value: the opening event of every
middleware trace records an identical name and label, both equal to
the single static string "/v1/rest". -/
theorem span_name_equals_grouping_label (request : Request)
    (next : Request → Response × List TraceEvent) :
    (((rest_request_tracing_middleware request next).2).head?.bind
        TraceEvent.openName)
      = some ("/v1/rest")
    ∧ (((rest_request_tracing_middleware request next).2).head?.bind
          TraceEvent.openLabel)
        = (((rest_request_tracing_middleware request next).2).head?.bind
            TraceEvent.openName) :=
  ⟨rfl, rfl⟩

/-- C9: the request forwarded to the downstream chain is the original
inbound request, unmodified: the middleware's result is determined by
the chain's value at exactly the inbound request (trace-context
extraction reads a copy of the header collection), and a downstream
chain that echoes what it receives observes exactly the inbound
request's headers and body, with no header consumed or removed. -/
theorem request_forwarded_unmodified (request : Request) :
    (∀ next : Request → Response × List TraceEvent,
      rest_request_tracing_middleware request next
        = ((next request).1,
            TraceEvent.spanOpen path path SpanVisibility.user
                (extractParentContext request.headers)
              :: (next request).2
              ++ [TraceEvent.spanClose path
                    (responseOutcome (next request).1)]))
    ∧ ((rest_request_tracing_middleware request echoHandler).1).headers
        = request.headers
    ∧ ((rest_request_tracing_middleware request echoHandler).1).body
        = request.body :=
  ⟨fun _ => rfl, rfl, rfl⟩

/-- C10: the conversion function attached by the builder does not
depend on the wrapped state value: for any two state values, of
possibly different types, the converters attached to their wrappers
produce the same response on the same Middleware Error input. -/
theorem converter_independent_of_state (S₁ S₂ : Type) (s₁ : S₁) (s₂ : S₂)
    (e : MiddlewareError) :
    (build_state_with_middleware_error_converter s₁).convert e
      = (build_state_with_middleware_error_converter s₂).convert e :=
  rfl

end JsonApiMiddleware
